import Mathlib

/-!
Verification of the task queue and execution-dispatch subsystem of
`tools/claude_assistant.py`: the queue store (`safe_write_queue`,
`assign_task`, `cancel_task`, `update_task`), the claim step
(`process_queue`), the single-flight dispatcher (`execute_queue`), and the
completion/telemetry/archival path (`log_task_completion`,
`capture_token_telemetry`).

Python dictionaries are embedded as insertion-ordered association lists
(`dictSet` replaces in place, `dictGet` finds the first match, `dictDel`
removes the key), timestamps as natural numbers, and JSON documents as
structures holding exactly the fields the source reads or writes.
-/

namespace Orchestrate

/-- Python dict assignment `d[k] = v`: replace the value in place if the key
exists, otherwise append the new binding at the end. -/
def dictSet (k : String) (v : α) : List (String × α) → List (String × α)
  | [] => [(k, v)]
  | (k', v') :: rest => if k' = k then (k, v) :: rest else (k', v') :: dictSet k v rest

/-- Python dict lookup `d.get(k)`. -/
def dictGet (k : String) : List (String × α) → Option α
  | [] => none
  | (k', v') :: rest => if k' = k then some v' else dictGet k rest

/-- Python `del d[k]` (removes the first binding for `k`). -/
def dictDel (k : String) : List (String × α) → List (String × α)
  | [] => []
  | (k', v') :: rest => if k' = k then rest else (k', v') :: dictDel k rest

/-- Python truthiness of an optional string parameter: `not x` holds for an
absent parameter (`None`) and for the empty string. -/
def strFalsy : Option String → Bool
  | none => true
  | some s => s = ""

/-- Substring test (`pat in s` for a nonempty pattern `pat`). -/
def containsSub (s pat : String) : Bool :=
  (s.splitOn pat).length > 1

/-! ## `safe_write_queue`: permission-aware full-document overwrite

The queue file is embedded as a mode word (the `st_mode` permission bits the
source manipulates through `os.stat`/`os.chmod`) together with its content.
-/

/-- `stat.S_IWUSR` (owner-write bit, `0o200`). -/
def S_IWUSR : Nat := 128
/-- `stat.S_IRUSR` (`0o400`). -/
def S_IRUSR : Nat := 256
/-- `stat.S_IRGRP` (`0o040`). -/
def S_IRGRP : Nat := 32
/-- `stat.S_IROTH` (`0o004`). -/
def S_IROTH : Nat := 4

/-- A file on disk: permission bits and content. -/
structure QFile where
  mode : Nat
  content : String
deriving DecidableEq, Repr

/-- Owner-writability of a file, as the source tests it
(`file_stat.st_mode & stat.S_IWUSR`). -/
def QFile.writable (f : QFile) : Bool :=
  f.mode &&& S_IWUSR != 0

/-- `safe_write_queue(queue_file, queue_data)`: if the target exists and is
read-only, temporarily chmod it to `0o644`, write, then chmod back to
`0o444`; otherwise just write.  `createMode` is the mode a freshly created
file receives from `open(..., 'w')` (umask-dependent, not fixed by the
source). -/
def safeWriteQueue (createMode : Nat) (file : Option QFile) (doc : String) : QFile :=
  match file with
  | none => { mode := createMode, content := doc }
  | some f =>
    if f.mode &&& S_IWUSR = 0 then
      -- was_readonly: chmod 644, write, chmod back to 444
      { mode := S_IRUSR ||| S_IRGRP ||| S_IROTH, content := doc }
    else
      { mode := f.mode, content := doc }

/-! ## Task data model (`data/claude_task_queue.json`) -/

/-- Task lifecycle states appearing in the source. -/
inductive TaskStatus
  | queued
  | in_progress
  | done
  | error
  | cancelled
deriving DecidableEq, Repr

/-- Rendering of a status, for the error messages that quote it. -/
def statusStr : TaskStatus → String
  | .queued => "queued"
  | .in_progress => "in_progress"
  | .done => "done"
  | .error => "error"
  | .cancelled => "cancelled"

/-- An opaque context value (Python passes strings, booleans, and small
dicts through the `context` mapping). -/
inductive CtxVal
  | str (s : String)
  | bool (b : Bool)
  | obj (l : List (String × String))
deriving DecidableEq, Repr

/-- A task record as written by `assign_task` and mutated by the lifecycle
operations. -/
structure Task where
  status : TaskStatus
  created_at : Nat
  assigned_by : String := "GPT"
  priority : String := "medium"
  description : String
  context : List (String × CtxVal) := []
  batch_id : Option String := none
  started_at : Option Nat := none
  cancelled_at : Option Nat := none
  updated_at : Option Nat := none
deriving DecidableEq, Repr

/-- The `tasks` mapping of the queue document. -/
abbrev Queue := List (String × Task)

/-- The `status`/`message` core of every JSON response the operations
return. -/
structure Response where
  status : String
  message : String
deriving DecidableEq, Repr

/-- Shorthand for the error responses. -/
def errResp (msg : String) : Response := { status := "error", message := msg }

/-! ## `assign_task` -/

/-- Parameters of `assign_task` (`params.get` fields with their defaults). -/
structure AssignParams where
  task_id : Option String := none
  description : Option String := none
  priority : String := "medium"
  context : List (String × CtxVal) := []
  create_output_doc : Bool := false
  batch_id : Option String := none
deriving Repr

/-- Environment `assign_task` reads outside the queue document: the
execution-context file, the (nonempty) working-memory file, and the
tool-build protocol file, each `none` when missing or unreadable. -/
structure AssignEnv where
  execution_context : Option String := none
  working_memory : Option String := none
  tool_build_protocol : Option String := none
deriving Repr

/-- The tool-build trigger keywords, after the source's
`keyword.replace(".*", " ")` is applied to the last entry `"build.*tool"`. -/
def toolBuildKeywords : List String :=
  ["build tool", "create tool", "new tool", "implement tool", "write tool", "build tool"]

/-- Context assembly of `assign_task`: inject execution context, working
memory, the `create_output_doc` flag, the outline hint, and the mandatory
tool-build protocol, in source order. -/
def buildContext (env : AssignEnv) (p : AssignParams) (description : String) :
    List (String × CtxVal) :=
  let c := p.context
  let c := match env.execution_context with
    | some v =>
        dictSet "context_note"
          (.str "execution_context contains all routing rules, collection IDs, and tool policies. Use this instead of searching.")
          (dictSet "execution_context" (.str v) c)
    | none => c
  let c := match env.working_memory with
    | some v => dictSet "working_memory" (.str v) c
    | none => c
  let c := dictSet "create_output_doc" (.bool p.create_output_doc) c
  let c := if p.create_output_doc then
      dictSet "hint"
        (.str "Create an outline document for this task using execution_hub.py with outline_editor.create_doc") c
    else c
  if toolBuildKeywords.any (fun k => containsSub description.toLower k) then
    match env.tool_build_protocol with
    | some content =>
        dictSet "MANDATORY_PROTOCOL"
          (.obj [("file", "data/tool_build_protocol.md"), ("content", content),
                 ("warning", "READ THIS BEFORE BUILDING TOOL - Check existing credentials, test the tool, log completion. Skipping protocol = FAILED TASK.")]) c
    | none => c
  else c

/-- Outcome of a Python call: a returned value or an uncaught exception. -/
inductive PyResult (α : Type)
  | ok (val : α)
  | exn (msg : String)
deriving DecidableEq, Repr

/-- The auto-generated batch id
`f"batch_{datetime.now().strftime(...)}_{task_id[:8]}"`. -/
def genBatchId (now : Nat) (task_id : String) : String :=
  "batch_" ++ toString now ++ "_" ++ (task_id.take 8)

/-- `assign_task(params)` over the queue document `qf` (`none` when the queue
file does not exist).  NOTE (source order): the batch-id default is computed
by slicing `task_id[:8]` BEFORE the missing-`task_id` validation runs, so a
call with no `task_id` and no `batch_id` raises a `TypeError` instead of
reaching the validation return. -/
def assignTask (env : AssignEnv) (now : Nat) (p : AssignParams) (qf : Option Queue) :
    PyResult (Response × Option Queue) :=
  let gen : PyResult (Option String) :=
    if strFalsy p.batch_id then
      match p.task_id with
      | none => .exn "TypeError: NoneType object is not subscriptable"
      | some t => .ok (some (genBatchId now t))
    else .ok p.batch_id
  match gen with
  | .exn m => .exn m
  | .ok batch_id =>
    if strFalsy p.task_id then
      .ok (errResp "Missing required field: task_id", qf)
    else if strFalsy p.description then
      .ok (errResp "Missing required field: description", qf)
    else
      let task_id := p.task_id.getD ""
      let description := p.description.getD ""
      let task : Task := {
        status := .queued
        created_at := now
        assigned_by := "GPT"
        priority := p.priority
        description := description
        context := buildContext env p description
        batch_id := batch_id }
      .ok ({ status := "success",
             message := "Task " ++ task_id ++ " assigned to Claude Code queue" },
           some (dictSet task_id task (qf.getD [])))

/-! ## `cancel_task` and `update_task` -/

/-- `cancel_task(params)`: reject only tasks already `done` or `error`;
otherwise set `status = cancelled` and `cancelled_at`. -/
def cancelTask (now : Nat) (task_id? : Option String) (qf : Option Queue) :
    Response × Option Queue :=
  if strFalsy task_id? then (errResp "Missing required field: task_id", qf)
  else
    match qf with
    | none => (errResp "No task queue found", none)
    | some queue =>
      let task_id := task_id?.getD ""
      match dictGet task_id queue with
      | none => (errResp ("Task " ++ task_id ++ " not found in queue"), some queue)
      | some task =>
        if task.status = .done ∨ task.status = .error then
          (errResp ("Cannot cancel task that is already " ++ statusStr task.status), some queue)
        else
          ({ status := "success", message := "Task " ++ task_id ++ " cancelled" },
           some (dictSet task_id
             { task with status := .cancelled, cancelled_at := some now } queue))

/-- Parameters of `update_task`. -/
structure UpdateParams where
  task_id : Option String := none
  description : Option String := none
  priority : Option String := none
  context : Option (List (String × CtxVal)) := none
deriving Repr

/-- Python truthiness of the optional `context` dict parameter. -/
def ctxFalsy : Option (List (String × CtxVal)) → Bool
  | none => true
  | some l => l.isEmpty

/-- `dict.update`: fold the new bindings into the current context. -/
def ctxUpdate (cur new : List (String × CtxVal)) : List (String × CtxVal) :=
  new.foldl (fun acc kv => dictSet kv.1 kv.2 acc) cur

/-- `update_task(params)`: only a `queued` task may be updated; the error
message quotes the current status. -/
def updateTask (now : Nat) (p : UpdateParams) (qf : Option Queue) :
    Response × Option Queue :=
  if strFalsy p.task_id then (errResp "Missing required field: task_id", qf)
  else if strFalsy p.description ∧ strFalsy p.priority ∧ ctxFalsy p.context then
    (errResp "Must provide at least one field to update (description, priority, or context)", qf)
  else
    match qf with
    | none => (errResp "No task queue found", none)
    | some queue =>
      let task_id := p.task_id.getD ""
      match dictGet task_id queue with
      | none => (errResp ("Task " ++ task_id ++ " not found in queue"), some queue)
      | some task =>
        if task.status ≠ .queued then
          (errResp ("Can only update tasks with status queued (current: " ++
             statusStr task.status ++ ")"), some queue)
        else
          let task := if ¬ strFalsy p.description then
              { task with description := p.description.getD "" } else task
          let task := if ¬ strFalsy p.priority then
              { task with priority := p.priority.getD "" } else task
          let task := if ¬ ctxFalsy p.context then
              { task with context := ctxUpdate task.context (p.context.getD []) } else task
          ({ status := "success", message := "Task " ++ task_id ++ " updated" },
           some (dictSet task_id { task with updated_at := some now } queue))

/-! ## Claims about the create/update/cancel path -/

/-- The queued/in-progress sample tasks used in concrete evaluations. -/
def sampleQueued : Task := { status := .queued, created_at := 0, description := "d" }

def sampleInProgress : Task :=
  { status := .in_progress, created_at := 0, description := "work", started_at := some 1 }

/-! ## `process_queue`: the bulk claim step -/

/-- The queue file as a reader observes it: missing, unparseable, or a
parsed document. -/
inductive QueueRead
  | absent
  | corrupt
  | doc (tasks : Queue)
deriving DecidableEq, Repr

/-- The claim transition applied to each queued task: `status = in_progress`,
`started_at = now`. -/
def claimTask (now : Nat) (t : Task) : Task :=
  { t with status := .in_progress, started_at := some now }

/-- Result of `process_queue`: the response status, the ids handed to the
agent, the reported `task_count`, and the queue document after the call. -/
structure ProcessResult where
  status : String
  pending : List String
  task_count : Nat
  queue' : QueueRead
deriving DecidableEq, Repr

/-- `process_queue(params)`: claim every `queued` task at one instant and
return exactly those tasks; all other statuses are filtered out and left
untouched.  When nothing is pending the file is not rewritten. -/
def processQueue (now : Nat) (qf : QueueRead) : ProcessResult :=
  match qf with
  | .absent => { status := "success", pending := [], task_count := 0, queue' := .absent }
  | .corrupt => { status := "error", pending := [], task_count := 0, queue' := .corrupt }
  | .doc tasks =>
    let pending := (tasks.filter (fun p => p.2.status == .queued)).map (·.1)
    if pending.isEmpty then
      { status := "success", pending := [], task_count := 0, queue' := .doc tasks }
    else
      { status := "success", pending := pending, task_count := pending.length,
        queue' := .doc (tasks.map (fun p =>
          if p.2.status == .queued then (p.1, claimTask now p.2) else p)) }

/-! ## `execute_queue`: the single-flight dispatcher -/

/-- The lock sentinel file as a reader observes it: missing, unparseable, or
parsed with an optional recorded pid (the `task_count` note is irrelevant to
control flow). -/
inductive LockRead
  | absent
  | corrupt
  | valid (pid : Option Nat) (task_count : Option Nat)
deriving DecidableEq, Repr

/-- Shared state `execute_queue` manipulates: the nested-session environment
marker, the lock sentinel, and the queue document. -/
structure SysState where
  claudecode : Bool
  lock : LockRead
  queue : QueueRead
deriving DecidableEq, Repr

/-- Observable outcome of `execute_queue`. -/
inductive ExecOutcome
  | nested
  | already_running (pid : Nat)
  | queue_result (status : String) (task_count : Nat)
  | task_started (task_count : Nat) (pid : Nat)
deriving DecidableEq, Repr

/-- Result of `execute_queue`: outcome, whether a Claude Code process was
spawned by this call, and the lock/queue state afterwards. -/
structure ExecResult where
  outcome : ExecOutcome
  spawned : Bool
  lock' : LockRead
  queue' : QueueRead
deriving DecidableEq, Repr

/-- `execute_queue(params)`.  `alive` is the liveness probe `os.kill(pid, 0)`;
`ownPid` is `os.getpid()` recorded in the sentinel; `childPid` the pid of the
spawned session.  NOTE (source): when the sentinel exists but cannot be
parsed, the handler only logs a warning and falls through — it still creates
a fresh sentinel and spawns, despite the inline comment saying it should
play it safe and not spawn. -/
def executeQueue (now ownPid childPid : Nat) (alive : Nat → Bool) (st : SysState) :
    ExecResult :=
  if st.claudecode then
    { outcome := .nested, spawned := false, lock' := st.lock, queue' := st.queue }
  else
    let early : Option ExecResult :=
      match st.lock with
      | .valid (some pid) _ =>
        if alive pid then
          some { outcome := .already_running pid, spawned := false,
                 lock' := st.lock, queue' := st.queue }
        else none        -- stale sentinel: removed, acquisition proceeds
      | _ => none        -- absent, unparseable, or pid-less: fall through
    match early with
    | some r => r
    | none =>
      -- sentinel is (re)created immediately, then the queue is claimed
      let pr := processQueue now st.queue
      if pr.task_count = 0 then
        { outcome := .queue_result pr.status 0, spawned := false,
          lock' := .absent, queue' := pr.queue' }
      else
        { outcome := .task_started pr.task_count childPid, spawned := true,
          lock' := .valid (some ownPid) (some pr.task_count), queue' := pr.queue' }

/-! ## Results, telemetry, and `log_task_completion` -/

/-- The `tokens` object written onto a Result. -/
structure Tokens where
  input : Nat
  output : Nat
  total : Nat
deriving DecidableEq, Repr

/-- A Result record in `data/claude_task_results.json`. -/
structure TaskResult where
  status : String
  description : String
  completed_at : Nat
  execution_time_seconds : Int
  actions_taken : List String := []
  output : String := ""
  output_summary : String
  errors : Option String := none
  batch_id : Option String := none
  batch_position : Option Nat := none
  tokens : Option Tokens := none
  token_cost : Option Nat := none
  tool : Option String := none
  action : Option String := none
deriving DecidableEq, Repr

/-- The `results` mapping of the results document. -/
abbrev Results := List (String × TaskResult)

/-- The telemetry snapshot `data/last_execution_telemetry.json`. -/
structure Telemetry where
  tokens_input : Nat
  tokens_output : Nat
  tool : Option String := none
  action : Option String := none
  task_id : Option String := none
  execution_time_seconds : Int := 0
  timestamp : Option Nat := none
deriving DecidableEq, Repr

/-- An entry of the `executions` list in `data/execution_log.json`. -/
structure ExecEntry where
  tool : String
  action : String
  token_cost : Option Nat := none
  tokens : Option Tokens := none
  actual_tool : Option String := none
  actual_action : Option String := none
deriving DecidableEq, Repr

/-- The on-disk state `log_task_completion` reads and writes: the queue
document, the live results, the current month's archive log (in append
order), the telemetry snapshot, the execution log, and the token totals
recoverable from `claude_execution.log` by the auto-capture fallback
(`none` when the transcript is missing or unparseable). -/
structure Store where
  queue : Option Queue
  results : Results
  archive : Results
  telemetry : Option Telemetry
  execLog : List ExecEntry
  logTokens : Option (Nat × Nat) := none
deriving DecidableEq, Repr

/-- Stable insertion step for `sorted(..., key=completed_at)`. -/
def insertByCompleted (x : String × TaskResult) : Results → Results
  | [] => [x]
  | y :: ys =>
    if x.2.completed_at ≤ y.2.completed_at then x :: y :: ys
    else y :: insertByCompleted x ys

/-- Python's stable ascending sort by `completed_at`. -/
def sortByCompleted : Results → Results
  | [] => []
  | x :: xs => insertByCompleted x (sortByCompleted xs)

/-- Ascending order on `completed_at` (oldest first). -/
def oldestFirst (a b : String × TaskResult) : Prop :=
  a.2.completed_at ≤ b.2.completed_at

/-- The archival step of `log_task_completion`: when the live store holds
more than 10 results, sort ascending by completion time, append everything
except the newest 10 to the archive, and keep only those 10. -/
def archiveOld (results archive : Results) : Results × Results :=
  if results.length > 10 then
    let sorted := sortByCompleted results
    let to_archive := sorted.take (sorted.length - 10)
    let to_keep := sorted.drop (sorted.length - 10)
    if to_archive.isEmpty then (results, archive)
    else (to_keep, archive ++ to_archive)
  else (results, archive)

/-- `completed_in_batch`: how many already-stored results carry this
`batch_id`. -/
def batchCount (batch : Option String) (results : Results) : Nat :=
  (results.filter (fun r => r.2.batch_id == batch)).length

/-- The telemetry merge applied to the just-written Result: batch-aware
input-token accounting (a non-first task of a batch is credited zero input
tokens), then the optional `tool`/`action` stamps. -/
def applyTelemetry (batch : Option String) (is_first : Bool) (t : Telemetry)
    (e : TaskResult) : TaskResult :=
  let input_tokens := if ¬ strFalsy batch ∧ is_first = false then 0 else t.tokens_input
  let e := if t.tokens_input ≠ 0 ∨ t.tokens_output ≠ 0 then
      { e with
        tokens := some { input := input_tokens, output := t.tokens_output,
                         total := input_tokens + t.tokens_output },
        token_cost := some (input_tokens + t.tokens_output) }
    else e
  let e := if ¬ strFalsy t.tool then { e with tool := t.tool } else e
  if ¬ strFalsy t.action then { e with action := t.action } else e

/-- Recognizes the execution-log entry the telemetry is folded back into. -/
def isExecQueueEntry (e : ExecEntry) : Bool :=
  e.tool == "claude_assistant" && e.action == "execute_queue"

/-- The retroactive update of one execution-log entry with raw telemetry. -/
def updateExecEntry (t : Telemetry) (e : ExecEntry) : ExecEntry :=
  let e := { e with
    token_cost := some (t.tokens_input + t.tokens_output),
    tokens := some { input := t.tokens_input, output := t.tokens_output,
                     total := t.tokens_input + t.tokens_output } }
  let e := if ¬ strFalsy t.tool then { e with actual_tool := t.tool } else e
  if ¬ strFalsy t.action then { e with actual_action := t.action } else e

/-- Update the first matching entry of a list. -/
def updateFirstExec (t : Telemetry) : List ExecEntry → List ExecEntry
  | [] => []
  | e :: rest =>
    if isExecQueueEntry e then updateExecEntry t e :: rest
    else e :: updateFirstExec t rest

/-- The source iterates `reversed(executions)` and updates the first match,
i.e. the last matching entry of the list. -/
def updateLastExec (t : Telemetry) (l : List ExecEntry) : List ExecEntry :=
  (updateFirstExec t l.reverse).reverse

/-- Execution time derived from `started_at` when the caller supplied none
(`datetime.now() - started`, in seconds). -/
def execTimeFrom (now : Nat) (fallback : Int) (started : Option Nat) : Int :=
  match started with
  | some s => (now : Int) - (s : Int)
  | none => fallback

/-- Parameters of `log_task_completion`. -/
structure CompletionParams where
  task_id : Option String := none
  status : Option String := none
  actions_taken : List String := []
  output : String := ""
  output_summary : Option String := none
  errors : Option String := none
  execution_time_seconds : Int := 0
deriving Repr

/-- `log_task_completion(params)`.  Mirrors the source step for step:
validate the two required fields; remove the task from the queue if it is
there (remembering `description`, `batch_id`, `started_at`), silently
continuing when it is not; derive the execution time from `started_at`;
archive old results; compute the batch position from the already-stored
results; write the Result; merge the telemetry snapshot (batch-aware) and
fold raw telemetry into the execution log, consuming the snapshot; or, with
no snapshot, attempt the auto-capture fallback from the execution
transcript, which merges WITHOUT batch adjustment; finally report success —
there is no not-found check anywhere on this path. -/
def logTaskCompletion (now : Nat) (st : Store) (p : CompletionParams) :
    Response × Store :=
  if strFalsy p.task_id then (errResp "Missing required field: task_id", st)
  else if strFalsy p.status then (errResp "Missing required field: status", st)
  else
    let task_id := p.task_id.getD ""
    let status := p.status.getD ""
    let found : Option Task := st.queue.bind (dictGet task_id)
    let task_description : Option String := found.map (fun t => t.description)
    let task_batch_id : Option String := found.bind (fun t => t.batch_id)
    let task_started_at : Option Nat := found.bind (fun t => t.started_at)
    let queue' : Option Queue := match found with
      | some _ => st.queue.map (dictDel task_id)
      | none => st.queue
    let execution_time : Int :=
      if p.execution_time_seconds = 0 then
        execTimeFrom now p.execution_time_seconds task_started_at
      else p.execution_time_seconds
    let results1 := (archiveOld st.results st.archive).1
    let archive1 := (archiveOld st.results st.archive).2
    let output_summary := match p.output_summary with
      | some s => if s = "" then (if status = "done" then "Task completed" else "Task failed") else s
      | none => if status = "done" then "Task completed" else "Task failed"
    let cnt := batchCount task_batch_id results1
    let is_first : Bool := if ¬ strFalsy task_batch_id then cnt == 0 else false
    let batch_position : Nat := if ¬ strFalsy task_batch_id then cnt + 1 else 0
    let desc := match task_description with
      | some d => if d = "" then output_summary else d
      | none => output_summary
    let entry : TaskResult := {
      status := status, description := desc, completed_at := now,
      execution_time_seconds := execution_time,
      actions_taken := p.actions_taken, output := p.output,
      output_summary := output_summary, errors := p.errors }
    let entry := if ¬ strFalsy task_batch_id then
        { entry with batch_id := task_batch_id, batch_position := some batch_position }
      else entry
    let results2 := dictSet task_id entry results1
    let resp : Response := {
      status := "success",
      message := "Task " ++ task_id ++ " completion logged with status: " ++ status }
    match st.telemetry with
    | some t =>
      (resp, { queue := queue',
               results := dictSet task_id (applyTelemetry task_batch_id is_first t entry) results2,
               archive := archive1, telemetry := none,
               execLog := updateLastExec t st.execLog, logTokens := st.logTokens })
    | none =>
      match st.logTokens with
      | some (s, e) =>
        (resp, { queue := queue',
                 results := dictSet task_id
                   { entry with
                     token_cost := some (s + (e - s)),
                     tokens := some { input := s, output := e - s, total := s + (e - s) } }
                   results2,
                 archive := archive1, telemetry := none,
                 execLog := st.execLog, logTokens := st.logTokens })
      | none =>
        (resp, { queue := queue', results := results2, archive := archive1,
                 telemetry := none, execLog := st.execLog, logTokens := st.logTokens })

/-- Parameters of `capture_token_telemetry`. -/
structure CaptureParams where
  tokens_input : Option Nat := none
  tokens_output : Option Nat := none
  task_id : Option String := none
  tool : String := "claude_assistant"
  action : String := "execute_task"
  execution_time_seconds : Int := 0
deriving Repr

/-- `capture_token_telemetry(params)` (the `record_telemetry` boundary
operation): validate, then overwrite the single-occupancy snapshot file. -/
def captureTokenTelemetry (now : Nat) (st : Store) (p : CaptureParams) :
    Response × Store :=
  match p.tokens_input, p.tokens_output with
  | some ti, some tout =>
    if strFalsy p.task_id then (errResp "Missing required field: task_id", st)
    else
      ({ status := "success", message := "Token telemetry captured" },
       { st with telemetry := some {
           tokens_input := ti, tokens_output := tout,
           tool := some p.tool, action := some p.action,
           task_id := p.task_id,
           execution_time_seconds := p.execution_time_seconds,
           timestamp := some now } })
  | _, _ => (errResp "Missing required fields: tokens_input and tokens_output", st)

/-- An empty deployment state: queue file present with no tasks, no results,
no archive, no telemetry. -/
def emptyStore : Store :=
  { queue := some [], results := [], archive := [], telemetry := none, execLog := [] }

/-- The fold of `n` successful completions of distinct never-enqueued task
ids, one per instant. -/
def completionsSeq (n : Nat) : Store :=
  (List.range n).foldl
    (fun st i => (logTaskCompletion i st
      { task_id := some ("t" ++ toString i), status := some "done" }).2)
    emptyStore

/-- A claimed batched task, as `process_queue` leaves it. -/
def batchTask (b : String) : Task :=
  { status := .in_progress, created_at := 0, description := "work",
    batch_id := some b, started_at := some 1 }

/-- Three claimed tasks sharing one batch, no results yet. -/
def c4Start : Store :=
  { queue := some [("A", batchTask "b1"), ("B", batchTask "b1"), ("C", batchTask "b1")],
    results := [], archive := [], telemetry := none, execLog := [] }

/-- One agent round-trip for one task: record the telemetry snapshot, then
log the completion. -/
def completeStep (now tin tout : Nat) (tid : String) (st : Store) : Store :=
  (logTaskCompletion now
    (captureTokenTelemetry now st
      { tokens_input := some tin, tokens_output := some tout, task_id := some tid }).2
    { task_id := some tid, status := some "done" }).2

/-- The batch scenario: A, B, C complete in that order, each with its own
snapshot. -/
def c4Final (inA outA inB outB inC outC : Nat) : Store :=
  completeStep 12 inC outC "C"
    (completeStep 11 inB outB "B"
      (completeStep 10 inA outA "A" c4Start))

/-- The snapshot `capture_token_telemetry` leaves on disk. -/
def snap (now tin tout : Nat) (tid : String) : Telemetry :=
  { tokens_input := tin, tokens_output := tout,
    tool := some "claude_assistant", action := some "execute_task",
    task_id := some tid, execution_time_seconds := 0, timestamp := some now }

/-! ## Theorems -/

theorem dictGet_dictSet_self (k : String) (v : α) (l : List (String × α)) :
    dictGet k (dictSet k v l) = some v := by
  induction l with
  | nil => simp [dictSet, dictGet]
  | cons hd tl ih =>
    by_cases h : hd.1 = k
    · simp [dictSet, dictGet, h]
    · simp [dictSet, dictGet, h, ih]

theorem dictGet_dictSet_ne (k k' : String) (v : α) (l : List (String × α))
    (h : k' ≠ k) : dictGet k' (dictSet k v l) = dictGet k' l := by
  induction l with
  | nil => simp [dictSet, dictGet, Ne.symm h]
  | cons hd tl ih =>
    by_cases hk : hd.1 = k
    · have hne : ¬ hd.1 = k' := by rw [hk]; exact Ne.symm h
      simp [dictSet, dictGet, hk, hne, Ne.symm h]
    · by_cases hk' : hd.1 = k'
      · simp [dictSet, dictGet, hk, hk', h]
      · simp [dictSet, dictGet, hk, hk', ih]

theorem dictSet_length_le (k : String) (v : α) (l : List (String × α)) :
    (dictSet k v l).length ≤ l.length + 1 := by
  induction l with
  | nil => simp [dictSet]
  | cons hd tl ih =>
    by_cases h : hd.1 = k
    · simp [dictSet, h]
    · simp [dictSet, h]; omega

theorem dictSet_length_of_mem (k : String) (v : α) (l : List (String × α))
    (h : (dictGet k l).isSome) : (dictSet k v l).length = l.length := by
  induction l with
  | nil => simp [dictGet] at h
  | cons hd tl ih =>
    by_cases hk : hd.1 = k
    · simp [dictSet, hk]
    · simp [dictGet, hk] at h
      simp [dictSet, hk, ih h]

/-- C9: `safe_write_queue` always writes the given document; for an existing
file the owner-writability is unchanged by the call, and if the file was
already writable its permission bits are left exactly as they were. -/
theorem safe_write_queue_preserves_writability (createMode : Nat)
    (file : Option QFile) (doc : String) :
    (safeWriteQueue createMode file doc).content = doc ∧
    (∀ f : QFile, file = some f →
      (safeWriteQueue createMode file doc).writable = f.writable ∧
      (f.writable = true → safeWriteQueue createMode file doc = { mode := f.mode, content := doc })) := by
  constructor
  · cases file with
    | none => rfl
    | some f =>
      simp only [safeWriteQueue]
      split <;> rfl
  · rintro f rfl
    simp only [safeWriteQueue, QFile.writable]
    by_cases h : f.mode &&& S_IWUSR = 0
    · rw [if_pos h]
      refine ⟨?_, ?_⟩
      · have hro : (S_IRUSR ||| S_IRGRP ||| S_IROTH) &&& S_IWUSR = 0 := by decide
        show ((S_IRUSR ||| S_IRGRP ||| S_IROTH) &&& S_IWUSR != 0) = (f.mode &&& S_IWUSR != 0)
        rw [hro, h]
      · intro hw
        rw [h] at hw
        exact absurd hw (by decide)
    · rw [if_neg h]
      exact ⟨rfl, fun _ => rfl⟩

/-- Witness for C9: a concrete read-only file (mode `0o444`) is rewritten with
the new document and stays read-only; a writable file (mode `0o644`) keeps its
mode bits. -/
theorem safe_write_queue_preserves_writability_witness :
    ((safeWriteQueue 420 (some { mode := 292, content := "old" }) "new").content = "new" ∧
      (∀ f : QFile, some { mode := 292, content := "old" } = some f →
        (safeWriteQueue 420 (some { mode := 292, content := "old" }) "new").writable = f.writable ∧
        (f.writable = true →
          safeWriteQueue 420 (some { mode := 292, content := "old" }) "new" = { mode := f.mode, content := "new" }))) ∧
    (safeWriteQueue 420 (some { mode := 420, content := "old" }) "new" = { mode := 420, content := "new" }) :=
  ⟨safe_write_queue_preserves_writability 420 (some { mode := 292, content := "old" }) "new",
    ((safe_write_queue_preserves_writability 420 (some { mode := 420, content := "old" }) "new").2
      { mode := 420, content := "old" } rfl).2 (by decide)⟩

/-- C8: `assign_task` computes the default batch id by slicing `task_id[:8]`
before the missing-`task_id` validation runs.  A call with `task_id` absent
and no `batch_id` therefore raises a `TypeError` instead of returning the
structured validation failure; only when a `batch_id` is supplied does the
structured error reach the caller. -/
theorem assign_task_missing_id_raises :
    assignTask {} 0 {} (some []) = .exn "TypeError: NoneType object is not subscriptable" ∧
    assignTask {} 0 { batch_id := some "b1" } (some []) =
      .ok (errResp "Missing required field: task_id", some []) := by
  decide

/-- C10: `assign_task` with a `task_id` already present in the live queue —
whatever the status of the existing record, including `in_progress` —
reports success and replaces the record with a fresh `queued` task; no
duplicate-id error or warning is produced. -/
theorem assign_task_overwrites_existing (env : AssignEnv) (now : Nat)
    (p : AssignParams) (tid d : String) (q : Queue) (t : Task)
    (hid : p.task_id = some tid) (hid' : tid ≠ "")
    (hd : p.description = some d) (hd' : d ≠ "")
    (_hexist : dictGet tid q = some t) :
    ∃ fresh : Task,
      assignTask env now p (some q) =
        .ok ({ status := "success",
               message := "Task " ++ tid ++ " assigned to Claude Code queue" },
             some (dictSet tid fresh q)) ∧
      fresh.status = .queued ∧ fresh.started_at = none ∧
      fresh.description = d ∧ fresh.created_at = now := by
  have h1 : strFalsy (some tid) = false := by simp [strFalsy, hid']
  have h2 : strFalsy (some d) = false := by simp [strFalsy, hd']
  by_cases hb : strFalsy p.batch_id
  · refine ⟨{ status := .queued, created_at := now, assigned_by := "GPT",
              priority := p.priority, description := d,
              context := buildContext env p d,
              batch_id := some (genBatchId now tid) }, ?_, rfl, rfl, rfl, rfl⟩
    simp only [assignTask, hid, hd, hb, if_true, h1, h2, Bool.false_eq_true, if_false,
      Option.getD_some]
  · refine ⟨{ status := .queued, created_at := now, assigned_by := "GPT",
              priority := p.priority, description := d,
              context := buildContext env p d,
              batch_id := p.batch_id }, ?_, rfl, rfl, rfl, rfl⟩
    simp only [assignTask, hid, hd, hb, Bool.false_eq_true, if_false, h1, h2,
      Option.getD_some]

/-- Witness for C10: assigning over an existing `in_progress` record. -/
theorem assign_task_overwrites_existing_witness :
    ∃ fresh : Task,
      assignTask {} 7 { task_id := some "t1", description := some "redo" }
          (some [("t1", { status := .in_progress, created_at := 0,
                          description := "old", started_at := some 1 })]) =
        .ok ({ status := "success",
               message := "Task " ++ "t1" ++ " assigned to Claude Code queue" },
             some (dictSet "t1" fresh
               [("t1", { status := .in_progress, created_at := 0,
                         description := "old", started_at := some 1 })])) ∧
      fresh.status = .queued ∧ fresh.started_at = none ∧
      fresh.description = "redo" ∧ fresh.created_at = 7 :=
  assign_task_overwrites_existing {} 7
    { task_id := some "t1", description := some "redo" } "t1" "redo"
    [("t1", { status := .in_progress, created_at := 0,
              description := "old", started_at := some 1 })]
    { status := .in_progress, created_at := 0, description := "old", started_at := some 1 }
    rfl (by decide) rfl (by decide) (by decide)

/-- C3 (counterexample): on a task whose status is `in_progress`,
`cancel_task` does NOT fail with a state-conflict error — it succeeds and
rewrites the record to `cancelled`. -/
theorem cancel_task_in_progress_succeeds :
    (cancelTask 9 (some "t1") (some [("t1", sampleInProgress)])).1.status = "success" ∧
    (cancelTask 9 (some "t1") (some [("t1", sampleInProgress)])).2 =
      some [("t1", { sampleInProgress with status := .cancelled, cancelled_at := some 9 })] := by
  decide

/-- C3 (amended): `update_task` rejects every non-`queued` status with a
state-conflict error quoting the current status and leaves the queue
unchanged, and succeeds on a `queued` task; `cancel_task` rejects (quoting
the status) only `done` and `error`, and succeeds — cancelling the record —
on `queued`, `in_progress`, and `cancelled` tasks. -/
theorem lifecycle_guards (now : Nat) (q : Queue) (tid : String) (t : Task)
    (hid : tid ≠ "") (hexist : dictGet tid q = some t) :
    ((t.status = .done ∨ t.status = .error) →
       cancelTask now (some tid) (some q) =
         (errResp ("Cannot cancel task that is already " ++ statusStr t.status), some q)) ∧
    ((t.status = .queued ∨ t.status = .in_progress ∨ t.status = .cancelled) →
       cancelTask now (some tid) (some q) =
         ({ status := "success", message := "Task " ++ tid ++ " cancelled" },
          some (dictSet tid { t with status := .cancelled, cancelled_at := some now } q))) ∧
    (∀ p : UpdateParams, p.task_id = some tid →
       ¬(strFalsy p.description ∧ strFalsy p.priority ∧ ctxFalsy p.context) →
       (t.status ≠ .queued →
          updateTask now p (some q) =
            (errResp ("Can only update tasks with status queued (current: " ++
               statusStr t.status ++ ")"), some q)) ∧
       (t.status = .queued → (updateTask now p (some q)).1.status = "success")) := by
  have h1 : strFalsy (some tid) = false := by simp [strFalsy, hid]
  refine ⟨?_, ?_, ?_⟩
  · intro hde
    simp only [cancelTask, h1, Bool.false_eq_true, if_false, Option.getD_some, hexist]
    rw [if_pos hde]
  · intro hqic
    have hcond : ¬(t.status = .done ∨ t.status = .error) := by
      rcases hqic with h | h | h <;> rw [h] <;> simp
    simp only [cancelTask, h1, Bool.false_eq_true, if_false, Option.getD_some, hexist]
    rw [if_neg hcond]
  · intro p hp hfields
    have h2 : ¬(strFalsy p.description = true ∧ strFalsy p.priority = true ∧
        ctxFalsy p.context = true) := hfields
    constructor
    · intro hne
      simp only [updateTask, hp, h1, Bool.false_eq_true, if_false, Option.getD_some, hexist]
      rw [if_neg h2, if_pos hne]
    · intro hq
      simp only [updateTask, hp, h1, Bool.false_eq_true, if_false, Option.getD_some, hexist]
      rw [if_neg h2, if_neg (fun hh => hh hq)]

/-- Witness for C3 (amended): cancelling a concrete `queued` task succeeds. -/
theorem lifecycle_guards_witness :
    cancelTask 9 (some "t1") (some [("t1", sampleQueued)]) =
      ({ status := "success", message := "Task " ++ "t1" ++ " cancelled" },
       some (dictSet "t1" { sampleQueued with status := .cancelled, cancelled_at := some 9 }
         [("t1", sampleQueued)])) :=
  (lifecycle_guards 9 [("t1", sampleQueued)] "t1" sampleQueued (by decide) (by decide)).2.1
    (Or.inl rfl)

theorem dictGet_map_claim (now : Nat) (k : String) (tasks : Queue) :
    dictGet k (tasks.map (fun p => if p.2.status == .queued then (p.1, claimTask now p.2) else p)) =
      (dictGet k tasks).map (fun t => if t.status == .queued then claimTask now t else t) := by
  induction tasks with
  | nil => simp [dictGet]
  | cons hd tl ih =>
    obtain ⟨a, v⟩ := hd
    simp only [List.map_cons]
    by_cases hq : v.status == .queued
    · rw [if_pos hq]
      simp only [dictGet]
      by_cases hk : a = k
      · have hq' : v.status = .queued := by simpa using hq
        rw [if_pos hk, if_pos hk]
        simp [hq']
      · rw [if_neg hk, if_neg hk]
        exact ih
    · rw [if_neg hq]
      simp only [dictGet]
      by_cases hk : a = k
      · have hq' : ¬ v.status = .queued := by simpa using hq
        rw [if_pos hk, if_pos hk]
        simp [hq']
      · rw [if_neg hk, if_neg hk]
        exact ih

theorem dictGet_eq_of_mem (k : String) (v : α) (l : List (String × α))
    (hnd : (l.map Prod.fst).Nodup) (hmem : (k, v) ∈ l) : dictGet k l = some v := by
  induction l with
  | nil => simp at hmem
  | cons hd tl ih =>
    simp only [List.map_cons, List.nodup_cons] at hnd
    rcases List.mem_cons.mp hmem with h | h
    · rw [← h]; simp [dictGet]
    · have : hd.1 ≠ k := by
        intro hk
        exact hnd.1 (by simpa [hk] using List.mem_map_of_mem Prod.fst h)
      simp [dictGet, this, ih hnd.2 h]

theorem mem_of_dictGet (k : String) (v : α) (l : List (String × α))
    (h : dictGet k l = some v) : (k, v) ∈ l := by
  induction l with
  | nil => simp [dictGet] at h
  | cons hd tl ih =>
    obtain ⟨a, v'⟩ := hd
    by_cases hk : a = k
    · subst hk
      simp only [dictGet, if_pos rfl] at h
      cases h
      exact List.mem_cons_self _ _
    · simp only [dictGet, if_neg hk] at h
      exact List.mem_cons_of_mem _ (ih h)

/-- C6: one `process_queue` call over a parsed queue document (whose keys are
unique, as Python dict keys are) moves every `queued` task to `in_progress`
with the single claim timestamp `now` as `started_at`, returns exactly the
ids of those tasks, and leaves every task in any other status unchanged. -/
theorem process_queue_claims_all_queued (now : Nat) (tasks : Queue)
    (hnd : (tasks.map Prod.fst).Nodup) :
    ∃ tasks', (processQueue now (.doc tasks)).queue' = .doc tasks' ∧
      (∀ tid t, dictGet tid tasks = some t →
        (t.status = .queued →
          dictGet tid tasks' = some { t with status := .in_progress, started_at := some now } ∧
          tid ∈ (processQueue now (.doc tasks)).pending) ∧
        (t.status ≠ .queued →
          dictGet tid tasks' = some t ∧ tid ∉ (processQueue now (.doc tasks)).pending)) ∧
      (∀ tid, tid ∈ (processQueue now (.doc tasks)).pending →
        ∃ t, dictGet tid tasks = some t ∧ t.status = .queued) := by
  by_cases hemp : ((tasks.filter (fun p => p.2.status == .queued)).map (·.1)).isEmpty
  · refine ⟨tasks, ?_, ?_, ?_⟩
    · simp [processQueue, hemp]
    · intro tid t hget
      constructor
      · intro hq
        exfalso
        have hmem : (tid, t) ∈ tasks.filter (fun p => p.2.status == .queued) :=
          List.mem_filter.mpr ⟨mem_of_dictGet tid t tasks hget, by simp [hq]⟩
        have : tid ∈ (tasks.filter (fun p => p.2.status == .queued)).map (·.1) :=
          List.mem_map_of_mem _ hmem
        rw [List.isEmpty_iff] at hemp
        simp [hemp] at this
      · intro _
        refine ⟨hget, ?_⟩
        simp [processQueue, hemp]
    · intro tid hmem
      simp [processQueue, hemp] at hmem
  · refine ⟨tasks.map (fun p => if p.2.status == .queued then (p.1, claimTask now p.2) else p),
      ?_, ?_, ?_⟩
    · simp only [processQueue, hemp, Bool.false_eq_true, if_false]
    · intro tid t hget
      constructor
      · intro hq
        constructor
        · rw [dictGet_map_claim, hget]
          simp [hq, claimTask]
        · simp only [processQueue, hemp, Bool.false_eq_true, if_false]
          exact List.mem_map_of_mem _
            (List.mem_filter.mpr ⟨mem_of_dictGet tid t tasks hget, by simp [hq]⟩)
      · intro hq
        constructor
        · rw [dictGet_map_claim, hget]
          simp [hq]
        · simp only [processQueue, hemp, Bool.false_eq_true, if_false]
          intro hmem
          rcases List.mem_map.mp hmem with ⟨⟨tid', t'⟩, hmem', htid⟩
          rcases List.mem_filter.mp hmem' with ⟨hmem'', hq'⟩
          subst htid
          rw [dictGet_eq_of_mem _ _ _ hnd hmem''] at hget
          cases hget
          simp at hq'
          exact hq hq'
    · intro tid hmem
      simp only [processQueue, hemp, Bool.false_eq_true, if_false] at hmem
      rcases List.mem_map.mp hmem with ⟨⟨tid', t'⟩, hmem', htid⟩
      rcases List.mem_filter.mp hmem' with ⟨hmem'', hq'⟩
      subst htid
      exact ⟨t', dictGet_eq_of_mem _ _ _ hnd hmem'', by simpa using hq'⟩

/-- Witness for C6: a queue with one queued and one done task. -/
theorem process_queue_claims_all_queued_witness :
    ∃ tasks',
      (processQueue 5 (.doc [("a", sampleQueued),
        ("b", { status := .done, created_at := 0, description := "x" })])).queue' = .doc tasks' ∧
      (∀ tid t, dictGet tid [("a", sampleQueued),
          ("b", { status := .done, created_at := 0, description := "x" })] = some t →
        (t.status = .queued →
          dictGet tid tasks' = some { t with status := .in_progress, started_at := some 5 } ∧
          tid ∈ (processQueue 5 (.doc [("a", sampleQueued),
            ("b", { status := .done, created_at := 0, description := "x" })])).pending) ∧
        (t.status ≠ .queued →
          dictGet tid tasks' = some t ∧
          tid ∉ (processQueue 5 (.doc [("a", sampleQueued),
            ("b", { status := .done, created_at := 0, description := "x" })])).pending)) ∧
      (∀ tid, tid ∈ (processQueue 5 (.doc [("a", sampleQueued),
          ("b", { status := .done, created_at := 0, description := "x" })])).pending →
        ∃ t, dictGet tid [("a", sampleQueued),
          ("b", { status := .done, created_at := 0, description := "x" })] = some t ∧
          t.status = .queued) :=
  process_queue_claims_all_queued 5
    [("a", sampleQueued), ("b", { status := .done, created_at := 0, description := "x" })]
    (by decide)

/-- C2: while the sentinel records a live pid, a second `execute_queue` call
returns the already-running outcome, spawns nothing, and changes no state;
once the recorded pid is dead, the stale sentinel is discarded and the call
claims every queued task and spawns the session. -/
theorem execute_queue_single_flight (now ownPid childPid : Nat) (alive : Nat → Bool)
    (st : SysState) (p : Nat) (tc : Option Nat) (tasks : Queue)
    (hcc : st.claudecode = false) (hl : st.lock = .valid (some p) tc) :
    (alive p = true →
      executeQueue now ownPid childPid alive st =
        { outcome := .already_running p, spawned := false,
          lock' := st.lock, queue' := st.queue }) ∧
    (alive p = false → st.queue = .doc tasks →
      (tasks.filter (fun q => q.2.status == .queued)) ≠ [] →
      executeQueue now ownPid childPid alive st =
        { outcome := .task_started
            ((tasks.filter (fun q => q.2.status == .queued)).length) childPid,
          spawned := true,
          lock' := .valid (some ownPid)
            (some ((tasks.filter (fun q => q.2.status == .queued)).length)),
          queue' := .doc (tasks.map (fun q =>
            if q.2.status == .queued then (q.1, claimTask now q.2) else q)) }) := by
  constructor
  · intro halive
    simp [executeQueue, hcc, hl, halive]
  · intro halive hq hne
    have hemp : ((tasks.filter (fun q => q.2.status == .queued)).map (·.1)).isEmpty = false := by
      simp [List.isEmpty_iff, hne]
    have hlen : ((tasks.filter (fun q => q.2.status == .queued)).map (·.1)).length =
        (tasks.filter (fun q => q.2.status == .queued)).length := List.length_map _ _
    have hlenne : (tasks.filter (fun q => q.2.status == .queued)).length ≠ 0 := by
      simpa [List.length_eq_zero] using hne
    simp only [executeQueue, hcc, Bool.false_eq_true, if_false, hl, halive, hq,
      processQueue, hemp, hlen]
    simp [hlenne]

/-- Witness for C2: dead recorded pid, one queued task — the call claims it
and spawns. -/
theorem execute_queue_single_flight_witness :
    executeQueue 3 10 11 (fun _ => false)
        { claudecode := false, lock := .valid (some 7) none,
          queue := .doc [("t1", sampleQueued)] } =
      { outcome := .task_started
          (([("t1", sampleQueued)].filter (fun q => q.2.status == TaskStatus.queued)).length) 11,
        spawned := true,
        lock' := .valid (some 10)
          (some (([("t1", sampleQueued)].filter (fun q => q.2.status == TaskStatus.queued)).length)),
        queue' := .doc ([("t1", sampleQueued)].map (fun q =>
          if q.2.status == TaskStatus.queued then (q.1, claimTask 3 q.2) else q)) } :=
  (execute_queue_single_flight 3 10 11 (fun _ => false)
      { claudecode := false, lock := .valid (some 7) none,
        queue := .doc [("t1", sampleQueued)] }
      7 none [("t1", sampleQueued)] rfl rfl).2 rfl rfl (by decide)

/-- C7: when the lock sentinel exists but cannot be parsed, `execute_queue`
does NOT hold back — it falls through the warning, recreates the sentinel,
claims the queued task and spawns a session, contradicting the source's own
comment that an unreadable sentinel must be treated as possibly active. -/
theorem execute_queue_corrupt_lock_spawns :
    (executeQueue 3 10 11 (fun _ => true)
        { claudecode := false, lock := .corrupt,
          queue := .doc [("t1", sampleQueued)] }).spawned = true ∧
    (executeQueue 3 10 11 (fun _ => true)
        { claudecode := false, lock := .corrupt,
          queue := .doc [("t1", sampleQueued)] }).outcome = .task_started 1 11 := by
  decide

theorem dictSet_dictSet_self (k : String) (v w : α) (l : List (String × α)) :
    dictSet k v (dictSet k w l) = dictSet k v l := by
  induction l with
  | nil => simp [dictSet]
  | cons hd tl ih =>
    by_cases h : hd.1 = k
    · simp [dictSet, h]
    · simp [dictSet, h, ih]

theorem mem_insertByCompleted (x z : String × TaskResult) (l : Results) :
    z ∈ insertByCompleted x l ↔ z = x ∨ z ∈ l := by
  induction l with
  | nil => simp [insertByCompleted]
  | cons y ys ih =>
    by_cases h : x.2.completed_at ≤ y.2.completed_at
    · rw [insertByCompleted, if_pos h]
      simp [List.mem_cons]
    · rw [insertByCompleted, if_neg h]
      simp only [List.mem_cons, ih]
      tauto

theorem pairwise_insertByCompleted (x : String × TaskResult) (l : Results)
    (h : l.Pairwise oldestFirst) : (insertByCompleted x l).Pairwise oldestFirst := by
  induction l with
  | nil => simp [insertByCompleted, List.pairwise_cons]
  | cons y ys ih =>
    rw [List.pairwise_cons] at h
    by_cases hle : x.2.completed_at ≤ y.2.completed_at
    · rw [insertByCompleted, if_pos hle]
      refine List.Pairwise.cons ?_ (List.Pairwise.cons h.1 h.2)
      intro z hz
      rcases List.mem_cons.mp hz with rfl | hz'
      · exact hle
      · exact le_trans hle (h.1 z hz')
    · rw [insertByCompleted, if_neg hle]
      refine List.Pairwise.cons ?_ (ih h.2)
      intro z hz
      rcases (mem_insertByCompleted x z ys).mp hz with rfl | hz'
      · exact le_of_not_le hle
      · exact h.1 z hz'

theorem sortByCompleted_pairwise (l : Results) :
    (sortByCompleted l).Pairwise oldestFirst := by
  induction l with
  | nil => simp [sortByCompleted]
  | cons x xs ih => exact pairwise_insertByCompleted x _ ih

theorem insertByCompleted_length (x : String × TaskResult) (l : Results) :
    (insertByCompleted x l).length = l.length + 1 := by
  induction l with
  | nil => rfl
  | cons y ys ih =>
    by_cases h : x.2.completed_at ≤ y.2.completed_at
    · rw [insertByCompleted, if_pos h]
      rfl
    · rw [insertByCompleted, if_neg h]
      simp [ih]

theorem sortByCompleted_length (l : Results) :
    (sortByCompleted l).length = l.length := by
  induction l with
  | nil => rfl
  | cons x xs ih =>
    rw [sortByCompleted, insertByCompleted_length, ih]
    rfl

theorem archiveOld_take_nonempty (r : Results) (h : r.length > 10) :
    ((sortByCompleted r).take ((sortByCompleted r).length - 10)).isEmpty = false := by
  have hsl : (sortByCompleted r).length = r.length := sortByCompleted_length r
  have hne : ¬ ((sortByCompleted r).take ((sortByCompleted r).length - 10)) = [] := by
    intro hnil
    have hl := congrArg List.length hnil
    simp only [List.length_take, hsl, List.length_nil] at hl
    omega
  rw [Bool.eq_false_iff]
  intro habs
  exact hne (List.isEmpty_iff.mp habs)

theorem archiveOld_keep_length (r a : Results) :
    (archiveOld r a).1.length = if r.length > 10 then 10 else r.length := by
  by_cases h : r.length > 10
  · have hsl : (sortByCompleted r).length = r.length := sortByCompleted_length r
    have hne := archiveOld_take_nonempty r h
    rw [hsl] at hne
    rw [if_pos h]
    simp only [archiveOld, if_pos h, hne, Bool.false_eq_true, if_false,
      List.length_drop, hsl]
    omega
  · simp [archiveOld, h]

theorem archiveOld_archive_spec (r a : Results) :
    ∃ dropped, (archiveOld r a).2 = a ++ dropped ∧ dropped.Pairwise oldestFirst := by
  by_cases h : r.length > 10
  · refine ⟨(sortByCompleted r).take ((sortByCompleted r).length - 10), ?_, ?_⟩
    · simp only [archiveOld, if_pos h, archiveOld_take_nonempty r h, Bool.false_eq_true,
        if_false]
    · exact List.Pairwise.sublist (List.take_sublist _ _) (sortByCompleted_pairwise r)
  · exact ⟨[], by simp [archiveOld, h], List.Pairwise.nil⟩

theorem archiveOld_id (r a : Results) (h : ¬ r.length > 10) :
    archiveOld r a = (r, a) := by
  simp [archiveOld, h]

theorem applyTelemetry_preserves (b : Option String) (f : Bool) (t : Telemetry)
    (e : TaskResult) :
    (applyTelemetry b f t e).status = e.status ∧
    (applyTelemetry b f t e).description = e.description ∧
    (applyTelemetry b f t e).output_summary = e.output_summary ∧
    (applyTelemetry b f t e).batch_id = e.batch_id ∧
    (applyTelemetry b f t e).batch_position = e.batch_position ∧
    (applyTelemetry b f t e).completed_at = e.completed_at := by
  unfold applyTelemetry
  by_cases h1 : t.tokens_input ≠ 0 ∨ t.tokens_output ≠ 0 <;>
    by_cases h2 : ¬ strFalsy t.tool <;>
      by_cases h3 : ¬ strFalsy t.action <;>
        simp [h1, h2, h3]

theorem applyTelemetry_tokens (b : Option String) (f : Bool) (t : Telemetry)
    (e : TaskResult) (hin : t.tokens_input ≠ 0 ∨ t.tokens_output ≠ 0) :
    (applyTelemetry b f t e).tokens =
      some { input := if ¬ strFalsy b ∧ f = false then 0 else t.tokens_input,
             output := t.tokens_output,
             total := (if ¬ strFalsy b ∧ f = false then 0 else t.tokens_input) +
               t.tokens_output } := by
  unfold applyTelemetry
  by_cases h2 : ¬ strFalsy t.tool <;>
    by_cases h3 : ¬ strFalsy t.action <;>
      simp [hin, h2, h3]

/-- C1 (counterexample): completing a task id that is NOT in the live queue
reports success and writes a Result — it does not report a not-found
error. -/
theorem log_completion_missing_task_reports_success :
    (logTaskCompletion 5 emptyStore
      { task_id := some "t1", status := some "done" }).1.status = "success" ∧
    dictGet "t1" (logTaskCompletion 5 emptyStore
      { task_id := some "t1", status := some "done" }).2.results ≠ none := by
  decide

/-- C1 (amended): for every completion call whose `task_id` is missing from
the live queue — in particular a second completion of an already-removed
task — the operation still reports success, leaves the queue untouched, and
(over)writes a Result whose description falls back to the output summary and
which carries no batch fields. -/
theorem log_completion_missing_task (now : Nat) (st : Store) (p : CompletionParams)
    (tid : String) (hid : p.task_id = some tid) (hid' : tid ≠ "")
    (hst : strFalsy p.status = false)
    (hmiss : st.queue.bind (dictGet tid) = none) :
    (logTaskCompletion now st p).1.status = "success" ∧
    (logTaskCompletion now st p).2.queue = st.queue ∧
    ∃ r, dictGet tid (logTaskCompletion now st p).2.results = some r ∧
      r.status = p.status.getD "" ∧ r.batch_id = none ∧ r.batch_position = none ∧
      r.description = r.output_summary := by
  have htid : strFalsy p.task_id = false := by rw [hid]; simp [strFalsy, hid']
  have htid2 : strFalsy (some tid) = false := by simp [strFalsy, hid']
  have hnone : strFalsy (none : Option String) = true := rfl
  rcases htel : st.telemetry with _ | t
  · rcases hlog : st.logTokens with _ | se
    · refine ⟨?_, ?_, ?_⟩
      · simp [logTaskCompletion, htid, htid2, hnone, hst, hid, hmiss, htel, hlog]
      · simp [logTaskCompletion, htid, htid2, hnone, hst, hid, hmiss, htel, hlog]
      · simp only [logTaskCompletion, htid, htid2, hnone, hst, Bool.false_eq_true,
          Bool.true_eq_false, if_false, ite_true, ite_false, hid,
          Option.getD_some, hmiss, Option.map_none', Option.none_bind, htel, hlog]
        exact ⟨_, dictGet_dictSet_self _ _ _, rfl, rfl, rfl, rfl⟩
    · refine ⟨?_, ?_, ?_⟩
      · simp [logTaskCompletion, htid, htid2, hnone, hst, hid, hmiss, htel, hlog]
      · simp [logTaskCompletion, htid, htid2, hnone, hst, hid, hmiss, htel, hlog]
      · simp only [logTaskCompletion, htid, htid2, hnone, hst, Bool.false_eq_true,
          Bool.true_eq_false, if_false, ite_true, ite_false, hid,
          Option.getD_some, hmiss, Option.map_none', Option.none_bind, htel, hlog]
        exact ⟨_, dictGet_dictSet_self _ _ _, rfl, rfl, rfl, rfl⟩
  · refine ⟨?_, ?_, ?_⟩
    · simp [logTaskCompletion, htid, htid2, hnone, hst, hid, hmiss, htel]
    · simp [logTaskCompletion, htid, htid2, hnone, hst, hid, hmiss, htel]
    · simp only [logTaskCompletion, htid, htid2, hnone, hst, Bool.false_eq_true,
        Bool.true_eq_false, if_false, ite_true, ite_false, hid,
        Option.getD_some, hmiss, Option.map_none', Option.none_bind, htel]
      refine ⟨_, dictGet_dictSet_self _ _ _, ?_, ?_, ?_, ?_⟩
      · rw [(applyTelemetry_preserves _ _ _ _).1]
        simp
      · rw [(applyTelemetry_preserves _ _ _ _).2.2.2.1]
        simp
      · rw [(applyTelemetry_preserves _ _ _ _).2.2.2.2.1]
        simp
      · rw [(applyTelemetry_preserves _ _ _ _).2.1, (applyTelemetry_preserves _ _ _ _).2.2.1]
        simp

/-- Witness for C1 (amended): completing `t9`, which was never enqueued. -/
theorem log_completion_missing_task_witness :
    (logTaskCompletion 7 emptyStore
      { task_id := some "t9", status := some "done" }).1.status = "success" ∧
    (logTaskCompletion 7 emptyStore
      { task_id := some "t9", status := some "done" }).2.queue = emptyStore.queue ∧
    ∃ r, dictGet "t9" (logTaskCompletion 7 emptyStore
        { task_id := some "t9", status := some "done" }).2.results = some r ∧
      r.status = (some "done").getD "" ∧ r.batch_id = none ∧ r.batch_position = none ∧
      r.description = r.output_summary :=
  log_completion_missing_task 7 emptyStore
    { task_id := some "t9", status := some "done" } "t9" rfl (by decide) (by decide)
    (by decide)

/-- C5 (counterexample): after the 11th completion the live Result Store
holds 11 entries — the stated retention cap of 10 is exceeded, because the
archival check runs before the new Result is inserted. -/
theorem result_store_cap_exceeded :
    ¬ ((completionsSeq 11).results.length ≤ 10) := by
  decide

/-- C5 (amended): after every successful completion the live Result Store
holds at most 11 entries (the cap of 10 is enforced on the pre-insertion
contents), and the archive only ever grows, by a batch of evicted results
sorted oldest-first by `completed_at`. -/
theorem result_store_bounded (now : Nat) (st : Store) (p : CompletionParams)
    (hsucc : (logTaskCompletion now st p).1.status = "success") :
    (logTaskCompletion now st p).2.results.length ≤ 11 ∧
    ∃ dropped, (logTaskCompletion now st p).2.archive = st.archive ++ dropped ∧
      dropped.Pairwise oldestFirst := by
  by_cases h1 : strFalsy p.task_id
  · exfalso
    simp only [logTaskCompletion] at hsucc
    rw [if_pos h1] at hsucc
    simp [errResp] at hsucc
  by_cases h2 : strFalsy p.status
  · exfalso
    simp only [logTaskCompletion] at hsucc
    rw [if_neg h1, if_pos h2] at hsucc
    simp [errResp] at hsucc
  have h1' : strFalsy p.task_id = false := by simpa using h1
  have h2' : strFalsy p.status = false := by simpa using h2
  have hkeep : (archiveOld st.results st.archive).1.length ≤ 10 := by
    rw [archiveOld_keep_length]
    by_cases hgt : st.results.length > 10
    · simp [hgt]
    · simp [hgt]
      omega
  obtain ⟨dropped, hdrop, hpair⟩ := archiveOld_archive_spec st.results st.archive
  constructor
  · rcases htel : st.telemetry with _ | t
    · rcases hlog : st.logTokens with _ | se
      · simp only [logTaskCompletion, h1', h2', Bool.false_eq_true, if_false, htel, hlog]
        calc (dictSet (p.task_id.getD "") _ (archiveOld st.results st.archive).1).length
            ≤ (archiveOld st.results st.archive).1.length + 1 := dictSet_length_le _ _ _
          _ ≤ 11 := by omega
      · simp only [logTaskCompletion, h1', h2', Bool.false_eq_true, if_false, htel, hlog]
        rw [dictSet_length_of_mem _ _ _ (by rw [dictGet_dictSet_self]; rfl)]
        calc (dictSet (p.task_id.getD "") _ (archiveOld st.results st.archive).1).length
            ≤ (archiveOld st.results st.archive).1.length + 1 := dictSet_length_le _ _ _
          _ ≤ 11 := by omega
    · simp only [logTaskCompletion, h1', h2', Bool.false_eq_true, if_false, htel]
      rw [dictSet_length_of_mem _ _ _ (by rw [dictGet_dictSet_self]; rfl)]
      calc (dictSet (p.task_id.getD "") _ (archiveOld st.results st.archive).1).length
          ≤ (archiveOld st.results st.archive).1.length + 1 := dictSet_length_le _ _ _
        _ ≤ 11 := by omega
  · refine ⟨dropped, ?_, hpair⟩
    rcases htel : st.telemetry with _ | t
    · rcases hlog : st.logTokens with _ | se
      · simpa only [logTaskCompletion, h1', h2', Bool.false_eq_true, if_false, htel,
          hlog] using hdrop
      · simpa only [logTaskCompletion, h1', h2', Bool.false_eq_true, if_false, htel,
          hlog] using hdrop
    · simpa only [logTaskCompletion, h1', h2', Bool.false_eq_true, if_false, htel]
        using hdrop

/-- Witness for C5 (amended): a concrete successful completion. -/
theorem result_store_bounded_witness :
    ((logTaskCompletion 5 emptyStore
      { task_id := some "w1", status := some "done" }).1.status = "success") ∧
    ((logTaskCompletion 5 emptyStore
        { task_id := some "w1", status := some "done" }).2.results.length ≤ 11 ∧
      ∃ dropped, (logTaskCompletion 5 emptyStore
          { task_id := some "w1", status := some "done" }).2.archive =
            emptyStore.archive ++ dropped ∧
        dropped.Pairwise oldestFirst) :=
  ⟨by decide, result_store_bounded 5 emptyStore
    { task_id := some "w1", status := some "done" } (by decide)⟩

/-- One completion step of a batched, claimed task with a telemetry snapshot
present: the task leaves the queue, exactly one Result for it is written on
top of the previous store, carrying the batch id, the 1-based completion
position among same-batch Results, and batch-adjusted tokens (the full
snapshot input for the first task of the batch, zero afterwards; always its
own output). -/
theorem log_step_batch (now : Nat) (st : Store) (tid b : String) (t : Telemetry)
    (task : Task) (q : Queue)
    (hq : st.queue = some q) (hget : dictGet tid q = some task)
    (htid : tid ≠ "") (hb : task.batch_id = some b) (hbne : b ≠ "")
    (htel : st.telemetry = some t)
    (hlen : ¬ st.results.length > 10) :
    ∃ e, (logTaskCompletion now st { task_id := some tid, status := some "done" }).2 =
        { queue := some (dictDel tid q),
          results := dictSet tid e st.results,
          archive := st.archive, telemetry := none,
          execLog := updateLastExec t st.execLog,
          logTokens := st.logTokens } ∧
      e.batch_id = some b ∧
      e.batch_position = some (batchCount (some b) st.results + 1) ∧
      (t.tokens_input ≠ 0 ∨ t.tokens_output ≠ 0 →
        ∃ tk, e.tokens = some tk ∧
          tk.input = (if batchCount (some b) st.results = 0 then t.tokens_input else 0) ∧
          tk.output = t.tokens_output) := by
  have htid2 : strFalsy (some tid) = false := by simp [strFalsy, htid]
  have hbf : strFalsy (some b) = false := by simp [strFalsy, hbne]
  have harch : archiveOld st.results st.archive = (st.results, st.archive) :=
    archiveOld_id _ _ hlen
  refine ⟨applyTelemetry (some b) (batchCount (some b) st.results == 0) t
    { status := "done",
      description := if task.description = "" then "Task completed" else task.description,
      completed_at := now,
      execution_time_seconds := execTimeFrom now 0 task.started_at,
      actions_taken := [], output := "", output_summary := "Task completed",
      errors := none, batch_id := some b,
      batch_position := some (batchCount (some b) st.results + 1) }, ?_, ?_, ?_, ?_⟩
  · simp only [logTaskCompletion, htid2, hbf, Bool.false_eq_true, if_false, ite_true,
      Option.getD_some, hq, Option.some_bind, hget, Option.map_some', Option.bind_some,
      hb, htel, harch, dictSet_dictSet_self]
    rfl
  · rw [(applyTelemetry_preserves _ _ _ _).2.2.2.1]
  · rw [(applyTelemetry_preserves _ _ _ _).2.2.2.2.1]
  · intro hin
    rw [applyTelemetry_tokens _ _ _ _ hin]
    refine ⟨_, rfl, ?_, rfl⟩
    simp only [hbf, Bool.false_eq_true, not_false_eq_true, true_and]
    by_cases hc : batchCount (some b) st.results = 0
    · simp [hc]
    · simp [hc]

/-- C4: for three tasks sharing one batch id completing in order A, B, C,
each with a telemetry snapshot reporting nonzero input tokens: Result A is
credited the full snapshot input, Results B and C are credited zero input
tokens, all three retain their own output tokens, and their batch positions
are 1, 2, 3 in completion order. -/
theorem batch_telemetry_first_task_only (inA outA inB outB inC outC : Nat)
    (hA : inA ≠ 0) (hB : inB ≠ 0) (hC : inC ≠ 0) :
    (∃ rA tkA, dictGet "A" (c4Final inA outA inB outB inC outC).results = some rA ∧
      rA.batch_position = some 1 ∧ rA.tokens = some tkA ∧
      tkA.input = inA ∧ tkA.output = outA) ∧
    (∃ rB tkB, dictGet "B" (c4Final inA outA inB outB inC outC).results = some rB ∧
      rB.batch_position = some 2 ∧ rB.tokens = some tkB ∧
      tkB.input = 0 ∧ tkB.output = outB) ∧
    (∃ rC tkC, dictGet "C" (c4Final inA outA inB outB inC outC).results = some rC ∧
      rC.batch_position = some 3 ∧ rC.tokens = some tkC ∧
      tkC.input = 0 ∧ tkC.output = outC) := by
  -- step A
  obtain ⟨e1, h1, h1b, h1pos, h1tok⟩ :=
    log_step_batch 10
      (captureTokenTelemetry 10 c4Start
        { tokens_input := some inA, tokens_output := some outA, task_id := some "A" }).2
      "A" "b1" (snap 10 inA outA "A") (batchTask "b1")
      [("A", batchTask "b1"), ("B", batchTask "b1"), ("C", batchTask "b1")]
      rfl rfl (by decide) rfl (by decide) rfl
      (by show ¬ (([] : Results).length > 10); decide)
  have hbcA : batchCount (some "b1")
      (captureTokenTelemetry 10 c4Start
        { tokens_input := some inA, tokens_output := some outA,
          task_id := some "A" }).2.results = 0 := rfl
  -- step B
  obtain ⟨e2, h2, h2b, h2pos, h2tok⟩ :=
    log_step_batch 11
      (captureTokenTelemetry 11 (completeStep 10 inA outA "A" c4Start)
        { tokens_input := some inB, tokens_output := some outB, task_id := some "B" }).2
      "B" "b1" (snap 11 inB outB "B") (batchTask "b1")
      [("B", batchTask "b1"), ("C", batchTask "b1")]
      rfl rfl (by decide) rfl (by decide) rfl
      (by show ¬ ((1 : Nat) > 10); decide)
  have hresB : (captureTokenTelemetry 11 (completeStep 10 inA outA "A" c4Start)
      { tokens_input := some inB, tokens_output := some outB,
        task_id := some "B" }).2.results = dictSet "A" e1 ([] : Results) := by
    show (logTaskCompletion 10
      (captureTokenTelemetry 10 c4Start
        { tokens_input := some inA, tokens_output := some outA, task_id := some "A" }).2
      { task_id := some "A", status := some "done" }).2.results = dictSet "A" e1 ([] : Results)
    rw [h1]
    rfl
  have hbcB : batchCount (some "b1")
      (captureTokenTelemetry 11 (completeStep 10 inA outA "A" c4Start)
        { tokens_input := some inB, tokens_output := some outB,
          task_id := some "B" }).2.results = 1 := by
    rw [hresB]
    simp [batchCount, dictSet, h1b]
  -- step C
  obtain ⟨e3, h3, h3b, h3pos, h3tok⟩ :=
    log_step_batch 12
      (captureTokenTelemetry 12
        (completeStep 11 inB outB "B" (completeStep 10 inA outA "A" c4Start))
        { tokens_input := some inC, tokens_output := some outC, task_id := some "C" }).2
      "C" "b1" (snap 12 inC outC "C") (batchTask "b1")
      [("C", batchTask "b1")]
      rfl rfl (by decide) rfl (by decide) rfl
      (by show ¬ ((2 : Nat) > 10); decide)
  have hresC : (captureTokenTelemetry 12
      (completeStep 11 inB outB "B" (completeStep 10 inA outA "A" c4Start))
      { tokens_input := some inC, tokens_output := some outC,
        task_id := some "C" }).2.results = dictSet "B" e2 (dictSet "A" e1 ([] : Results)) := by
    show (logTaskCompletion 11
      (captureTokenTelemetry 11 (completeStep 10 inA outA "A" c4Start)
        { tokens_input := some inB, tokens_output := some outB, task_id := some "B" }).2
      { task_id := some "B", status := some "done" }).2.results =
        dictSet "B" e2 (dictSet "A" e1 ([] : Results))
    rw [h2, hresB]
  have hbcC : batchCount (some "b1")
      (captureTokenTelemetry 12
        (completeStep 11 inB outB "B" (completeStep 10 inA outA "A" c4Start))
        { tokens_input := some inC, tokens_output := some outC,
          task_id := some "C" }).2.results = 2 := by
    rw [hresC]
    simp [batchCount, dictSet, h1b, h2b]
  -- assemble the final results mapping
  have hfinal : (c4Final inA outA inB outB inC outC).results =
      dictSet "C" e3 (dictSet "B" e2 (dictSet "A" e1 ([] : Results))) := by
    show (logTaskCompletion 12
      (captureTokenTelemetry 12
        (completeStep 11 inB outB "B" (completeStep 10 inA outA "A" c4Start))
        { tokens_input := some inC, tokens_output := some outC, task_id := some "C" }).2
      { task_id := some "C", status := some "done" }).2.results =
        dictSet "C" e3 (dictSet "B" e2 (dictSet "A" e1 ([] : Results)))
    rw [h3, hresC]
  rw [hbcA] at h1pos h1tok
  rw [hbcB] at h2pos h2tok
  rw [hbcC] at h3pos h3tok
  obtain ⟨tkA, htkA, htkAin, htkAout⟩ := h1tok (Or.inl hA)
  obtain ⟨tkB, htkB, htkBin, htkBout⟩ := h2tok (Or.inl hB)
  obtain ⟨tkC, htkC, htkCin, htkCout⟩ := h3tok (Or.inl hC)
  refine ⟨⟨e1, tkA, ?_, ?_, htkA, ?_, htkAout⟩,
          ⟨e2, tkB, ?_, ?_, htkB, ?_, htkBout⟩,
          ⟨e3, tkC, ?_, ?_, htkC, ?_, htkCout⟩⟩
  · rw [hfinal, dictGet_dictSet_ne _ _ _ _ (by decide),
      dictGet_dictSet_ne _ _ _ _ (by decide), dictGet_dictSet_self]
  · rw [h1pos]
  · rw [htkAin]
    simp [snap]
  · rw [hfinal, dictGet_dictSet_ne _ _ _ _ (by decide), dictGet_dictSet_self]
  · rw [h2pos]
  · rw [htkBin]
    simp
  · rw [hfinal, dictGet_dictSet_self]
  · rw [h3pos]
  · rw [htkCin]
    simp

/-- Witness for C4: concrete snapshots (100, 7), (50, 9), (60, 3). -/
theorem batch_telemetry_first_task_only_witness :
    (∃ rA tkA, dictGet "A" (c4Final 100 7 50 9 60 3).results = some rA ∧
      rA.batch_position = some 1 ∧ rA.tokens = some tkA ∧
      tkA.input = 100 ∧ tkA.output = 7) ∧
    (∃ rB tkB, dictGet "B" (c4Final 100 7 50 9 60 3).results = some rB ∧
      rB.batch_position = some 2 ∧ rB.tokens = some tkB ∧
      tkB.input = 0 ∧ tkB.output = 9) ∧
    (∃ rC tkC, dictGet "C" (c4Final 100 7 50 9 60 3).results = some rC ∧
      rC.batch_position = some 3 ∧ rC.tokens = some tkC ∧
      tkC.input = 0 ∧ tkC.output = 3) :=
  batch_telemetry_first_task_only 100 7 50 9 60 3 (by decide) (by decide) (by decide)

end Orchestrate
